import Mathlib

/-!
Verification of the `are-we-millionaires` lottery-notification scripts.

The Python sources use `re.search` / `re.findall` on a handful of fixed
patterns.  We embed the needed fragment of Python's regex semantics as a
small backtracking matcher over `List Char` (leftmost match, greedy/lazy
quantifier preference, at most one capturing group per pattern, which is
all the source patterns use), build each source pattern as an `RE` value,
and translate `extract_ticket_data`, `calculate_matches`, `find_prize`,
`format_message` and `format_ticket_message` on top of it.
-/

set_option maxRecDepth 20000

namespace Millionaires

/-- Python's `\s` class (ASCII part, the only part the inputs use). -/
def pyIsSpace (c : Char) : Bool :=
  c == ' ' || c == '\t' || c == '\n' || c == '\r' || c == '\x0b' || c == '\x0c'

/-- Regular-expression fragment used by the source patterns: single-character
classes, sequencing, greedy `*` / `+` and lazy `*?` over a character class,
greedy `(?:...)?`, and one capturing group. -/
inductive RE where
  | eps
  | cls (p : Char → Bool)
  | seq (a b : RE)
  | starCls (p : Char → Bool)
  | plusCls (p : Char → Bool)
  | lazyStarCls (p : Char → Bool)
  | opt (a : RE)
  | grp (a : RE)

/-- Try the continuation on the suffixes left after consuming between
`minTake` and the maximal run of `p`-characters, in greedy or lazy order. -/
def tryPrefixes (p : Char → Bool) (l : List Char) (minTake : Nat) (greedy : Bool)
    (k : List Char → Option α) : Option α :=
  let m := (l.takeWhile p).length
  if m < minTake then none
  else
    let counts :=
      if greedy then (List.range (m + 1 - minTake)).map (fun i => m - i)
      else (List.range (m + 1 - minTake)).map (fun i => minTake + i)
    counts.findSome? (fun c => k (l.drop c))

/-- Backtracking matcher in continuation-passing style.  The continuation
receives the remaining input and the current group-1 capture. -/
def reMatch : RE → List Char → Option (List Char) →
    (List Char → Option (List Char) → Option α) → Option α
  | .eps, l, g, k => k l g
  | .cls p, l, g, k =>
    match l with
    | [] => none
    | c :: rest => if p c then k rest g else none
  | .seq a b, l, g, k => reMatch a l g (fun l' g' => reMatch b l' g' k)
  | .starCls p, l, g, k => tryPrefixes p l 0 true (fun l' => k l' g)
  | .plusCls p, l, g, k => tryPrefixes p l 1 true (fun l' => k l' g)
  | .lazyStarCls p, l, g, k => tryPrefixes p l 0 false (fun l' => k l' g)
  | .opt a, l, g, k =>
    match reMatch a l g k with
    | some r => some r
    | none => k l g
  | .grp a, l, g, k =>
    reMatch a l g (fun l' _ => k l' (some (l.take (l.length - l'.length))))

/-- Attempt a match anchored at the head of `l`; on success return the number
of characters consumed and the group-1 capture. -/
def reMatchAt (r : RE) (l : List Char) : Option (Nat × Option (List Char)) :=
  reMatch r l none (fun rest g => some (l.length - rest.length, g))

/-- `re.search` semantics: leftmost match; returns (start, length, capture). -/
def reSearchAux (r : RE) : List Char → Nat → Option (Nat × Nat × Option (List Char))
  | [], pos =>
    match reMatchAt r [] with
    | some (len, g) => some (pos, len, g)
    | none => none
  | l@(_ :: rest), pos =>
    match reMatchAt r l with
    | some (len, g) => some (pos, len, g)
    | none => reSearchAux r rest (pos + 1)

def reSearch (r : RE) (l : List Char) : Option (Nat × Nat × Option (List Char)) :=
  reSearchAux r l 0

/-- `re.findall` semantics for one-group patterns: non-overlapping matches
left to right, collecting the group-1 captures. -/
def reFindAllAux (r : RE) : Nat → List Char → List (List Char)
  | 0, _ => []
  | fuel + 1, l =>
    match reSearchAux r l 0 with
    | none => []
    | some (pos, len, g) =>
      g.getD [] :: reFindAllAux r fuel (l.drop (pos + max len 1))

def pyFindAll (r : RE) (l : List Char) : List String :=
  (reFindAllAux r (l.length + 1) l).map List.asString

/-- Group-1 capture of the leftmost `re.search` match, if any. -/
def pySearchGroup (r : RE) (l : List Char) : Option String :=
  match reSearch r l with
  | some (_, _, some g) => some g.asString
  | some (_, _, none) => some ""
  | none => none

/-- A sequence of regex pieces. -/
def reSeq (l : List RE) : RE := l.foldr RE.seq RE.eps

/-- Case-sensitive literal. -/
def reLit (s : String) : RE :=
  reSeq (s.data.map (fun x => RE.cls (fun c => c == x)))

/-- Case-insensitive literal (`re.IGNORECASE`). -/
def reLitCI (s : String) : RE :=
  reSeq (s.data.map (fun x => RE.cls (fun c => c.toLower == x.toLower)))

def isDigitC (c : Char) : Bool := c.isDigit
def isUpperAZ (c : Char) : Bool := 'A' ≤ c && c ≤ 'Z'
/-- `[A-Z]` under `re.IGNORECASE`. -/
def isLetterCI (c : Char) : Bool := ('A' ≤ c && c ≤ 'Z') || ('a' ≤ c && c ≤ 'z')

/-! Patterns of `send_ticket_image.py` / `extract_ticket_data`. -/

/-- `saldo actual es[:\s]*<[^>]*>\s*([\d,]+)\s*€` with `re.IGNORECASE`. -/
def balancePat1 : RE :=
  reSeq [reLitCI "saldo actual es",
    .starCls (fun c => c == ':' || pyIsSpace c),
    .cls (fun c => c == '<'), .starCls (fun c => !(c == '>')), .cls (fun c => c == '>'),
    .starCls pyIsSpace,
    .grp (.plusCls (fun c => c.isDigit || c == ',')),
    .starCls pyIsSpace, .cls (fun c => c == '€')]

/-- `saldo actual es[:\s]*([\d,]+)\s*€` with `re.IGNORECASE`. -/
def balancePat2 : RE :=
  reSeq [reLitCI "saldo actual es",
    .starCls (fun c => c == ':' || pyIsSpace c),
    .grp (.plusCls (fun c => c.isDigit || c == ',')),
    .starCls pyIsSpace, .cls (fun c => c == '€')]

/-- `<td[^>]*style="[^"]*width:\s*30px[^"]*"[^>]*>\s*(\d{2})\s*</td>` with
`re.IGNORECASE | re.DOTALL`. -/
def numberPat : RE :=
  reSeq [reLitCI "<td", .starCls (fun c => !(c == '>')),
    reLitCI "style=\"", .starCls (fun c => !(c == '"')),
    reLitCI "width:", .starCls pyIsSpace, reLitCI "30px",
    .starCls (fun c => !(c == '"')), .cls (fun c => c == '"'),
    .starCls (fun c => !(c == '>')), .cls (fun c => c == '>'),
    .starCls pyIsSpace, .grp (reSeq [.cls isDigitC, .cls isDigitC]),
    .starCls pyIsSpace, reLitCI "</td>"]

/-- `<td[^>]*>\s*\+\s*</td>` with `re.IGNORECASE | re.DOTALL`. -/
def plusPat : RE :=
  reSeq [reLitCI "<td", .starCls (fun c => !(c == '>')), .cls (fun c => c == '>'),
    .starCls pyIsSpace, .cls (fun c => c == '+'), .starCls pyIsSpace, reLitCI "</td>"]

/-- `<td[^>]*>\s*(\d{2})\s*</td>` with `re.IGNORECASE | re.DOTALL`. -/
def simplePat : RE :=
  reSeq [reLitCI "<td", .starCls (fun c => !(c == '>')), .cls (fun c => c == '>'),
    .starCls pyIsSpace, .grp (reSeq [.cls isDigitC, .cls isDigitC]),
    .starCls pyIsSpace, reLitCI "</td>"]

/-- `([A-Z]{3}\d{5})`, no flags (case-sensitive). -/
def millonPat : RE :=
  .grp (reSeq [.cls isUpperAZ, .cls isUpperAZ, .cls isUpperAZ,
    .cls isDigitC, .cls isDigitC, .cls isDigitC, .cls isDigitC, .cls isDigitC])

/-- `\d{1,2}\s+[A-Z]{3}\s+\d{2}` under `re.IGNORECASE` (2-digit year). -/
def dateTok2 : RE :=
  reSeq [.cls isDigitC, .opt (.cls isDigitC), .plusCls pyIsSpace,
    .cls isLetterCI, .cls isLetterCI, .cls isLetterCI, .plusCls pyIsSpace,
    .cls isDigitC, .cls isDigitC]

/-- `game_millon_ticket\.gif.*?<p[^>]*>\s*(\d{1,2}\s+[A-Z]{3}\s+\d{2}
(?:\s*-\s*\d{1,2}\s+[A-Z]{3}\s+\d{2})?)\s*</p>` with `re.DOTALL | re.IGNORECASE`. -/
def millonDatePat : RE :=
  reSeq [reLitCI "game_millon_ticket.gif", .lazyStarCls (fun _ => true),
    reLitCI "<p", .starCls (fun c => !(c == '>')), .cls (fun c => c == '>'),
    .starCls pyIsSpace,
    .grp (reSeq [dateTok2,
      .opt (reSeq [.starCls pyIsSpace, .cls (fun c => c == '-'), .starCls pyIsSpace, dateTok2])]),
    .starCls pyIsSpace, reLitCI "</p>"]

/-- `\d{1,2}\s+[A-Z]{3}\s+\d{4}`, no flags (upper-case month required). -/
def dateTok4 : RE :=
  reSeq [.cls isDigitC, .opt (.cls isDigitC), .plusCls pyIsSpace,
    .cls isUpperAZ, .cls isUpperAZ, .cls isUpperAZ, .plusCls pyIsSpace,
    .cls isDigitC, .cls isDigitC, .cls isDigitC, .cls isDigitC]

/-- `(\d{1,2}\s+[A-Z]{3}\s+\d{4}(?:\s*-\s*\d{1,2}\s+[A-Z]{3}\s+\d{4})?)`, no flags. -/
def drawDatePat : RE :=
  .grp (reSeq [dateTok4,
    .opt (reSeq [.starCls pyIsSpace, .cls (fun c => c == '-'), .starCls pyIsSpace, dateTok4])])

/-- `([\d,]+)\s*EUR`, no flags (case-sensitive `EUR`). -/
def pricePat : RE :=
  reSeq [.grp (.plusCls (fun c => c.isDigit || c == ',')), .starCls pyIsSpace, reLit "EUR"]

/-- `(\d+)\s*apuesta` with `re.IGNORECASE`. -/
def betPat : RE :=
  reSeq [.grp (.plusCls isDigitC), .starCls pyIsSpace, reLitCI "apuesta"]

/-- `(\d{5}-\d{4}-\d{5}-\d{5}-\d{5}-\d{5}-\d{5})`, no flags. -/
def refPat : RE :=
  .grp (reSeq ((List.replicate 5 (RE.cls isDigitC) ++ [RE.cls (fun c => c == '-')]) ++
    (List.replicate 4 (RE.cls isDigitC) ++ [RE.cls (fun c => c == '-')]) ++
    (List.replicate 5 (RE.cls isDigitC) ++ [RE.cls (fun c => c == '-')]) ++
    (List.replicate 5 (RE.cls isDigitC) ++ [RE.cls (fun c => c == '-')]) ++
    (List.replicate 5 (RE.cls isDigitC) ++ [RE.cls (fun c => c == '-')]) ++
    (List.replicate 5 (RE.cls isDigitC) ++ [RE.cls (fun c => c == '-')]) ++
    List.replicate 5 (RE.cls isDigitC)))

/-! The ticket record and `extract_ticket_data` (send_ticket_image.py, lines 57-149). -/

/-- The dictionary built by `extract_ticket_data`, as a record with named
optional fields. -/
structure TicketRecord where
  numbers : List String
  stars : List String
  millon_code : Option String
  millon_date : Option String
  draw_date : Option String
  price : Option String
  bet_count : String
  balance : Option String
  reference : Option String
deriving DecidableEq, Repr

/-- Python `int` on a digit string. -/
def pyInt (s : String) : Nat :=
  s.data.foldl (fun a c => a * 10 + (c.toNat - 48)) 0

/-- The structural numbers: if the `+`-separator cell is found, the styled-cell
matches strictly before its start, truncated to the last 5 (`[-5:]`); `[]`
otherwise. -/
def structuralNumbers (l : List Char) : List String :=
  match reSearch plusPat l with
  | none => []
  | some (p, _, _) =>
    let nb := pyFindAll numberPat (l.take p)
    if nb.length ≥ 5 then nb.drop (nb.length - 5) else nb

/-- The structural stars: if the `+`-separator cell is found, the styled-cell
matches from its start onward, truncated to the first 2 (`[:2]`); `[]`
otherwise. -/
def structuralStars (l : List Char) : List String :=
  match reSearch plusPat l with
  | none => []
  | some (p, _, _) =>
    let na := pyFindAll numberPat (l.drop p)
    if na.length ≥ 2 then na.take 2 else na

/-- The fallback scan: every two-digit plain-cell value in the document whose
integer value lies in 1..50. -/
def fallbackFiltered (l : List Char) : List String :=
  (pyFindAll simplePat l).filter (fun n => 1 ≤ pyInt n && pyInt n ≤ 50)

/-- Numbers/stars as `extract_ticket_data` assigns them: structural attempt
first; if the numbers came out empty, the filtered fallback overwrites both
fields when it found at least 7 values. -/
def extractedNumbersStars (l : List Char) : List String × List String :=
  let nums0 := structuralNumbers l
  let stars0 := structuralStars l
  if nums0 = [] then
    let fb := fallbackFiltered l
    if fb.length ≥ 7 then (fb.take 5, (fb.drop 5).take 2) else (nums0, stars0)
  else (nums0, stars0)

/-- `extract_ticket_data(html_content)`. -/
def extract_ticket_data (html : String) : TicketRecord :=
  let l := html.data
  let balance :=
    match pySearchGroup balancePat1 l with
    | some g => some (g ++ "€")
    | none =>
      match pySearchGroup balancePat2 l with
      | some g => some (g ++ "€")
      | none => none
  let ns := extractedNumbersStars l
  { numbers := ns.1
    stars := ns.2
    millon_code := pySearchGroup millonPat l
    millon_date := pySearchGroup millonDatePat l
    draw_date := pySearchGroup drawDatePat l
    price := (pySearchGroup pricePat l).map (fun g => g ++ " EUR")
    bet_count := (pySearchGroup betPat l).getD "1"
    balance := balance
    reference := pySearchGroup refPat l }

/-! `format_ticket_message` (send_ticket_image.py, lines 152-191). -/

/-- Python `x or default` for an optional string (`None` and `""` are falsy). -/
def pyOr (o : Option String) (d : String) : String :=
  match o with
  | some s => if s = "" then d else s
  | none => d

/-- Python `needle in hay` on strings (substring test). -/
def strContains (needle : List Char) : List Char → Bool
  | [] => needle.isEmpty
  | hay@(_ :: t) => needle.isPrefixOf hay || strContains needle t

/-- `numbers_str`: `" - ".join(data["numbers"]) if data["numbers"] else "N/A"`. -/
def numbersStr (d : TicketRecord) : String :=
  if d.numbers = [] then "N/A" else String.intercalate " - " d.numbers

/-- `stars_str`: `" - ".join(data["stars"]) if data["stars"] else "N/A"`. -/
def starsStr (d : TicketRecord) : String :=
  if d.stars = [] then "N/A" else String.intercalate " - " d.stars

/-- `draw_date = data['draw_date'] or 'N/A'`. -/
def drawDateStr (d : TicketRecord) : String := pyOr d.draw_date "N/A"

/-- `millon_date = data['millon_date'] or 'N/A'`. -/
def millonDateStr (d : TicketRecord) : String := pyOr d.millon_date "N/A"

/-- `sorteo_label = "Sorteos" if " - " in draw_date else "Sorteo"`. -/
def sorteoLabel (d : TicketRecord) : String :=
  if strContains " - ".data (drawDateStr d).data then "Sorteos" else "Sorteo"

/-- The `lines` list built by `format_ticket_message`. -/
def format_ticket_message_lines (d : TicketRecord) : List String :=
  ["🎫 *EUROMILLONES - Resguardo*",
   "━━━━━━━━━━━━━━━━━━━━━━━━",
   "",
   "📍 *Tu combinación:*",
   "   Números: " ++ numbersStr d,
   "   Estrellas: " ++ starsStr d,
   "",
   "━━━━━━━━━━━━━━━━━━━━━━━━",
   "",
   "🎰 *EL MILLÓN*",
   "   Código: " ++ pyOr d.millon_code "N/A",
   "   Fecha: " ++ millonDateStr d,
   "",
   "━━━━━━━━━━━━━━━━━━━━━━━━",
   "",
   "📅 " ++ sorteoLabel d ++ ": " ++ drawDateStr d,
   "💶 Importe: " ++ pyOr d.price "N/A",
   "🎟️ Apuestas: " ++ d.bet_count,
   "",
   "━━━━━━━━━━━━━━━━━━━━━━━━",
   "",
   "💰 *Saldo disponible:* " ++ pyOr d.balance "N/A",
   "",
   "🔖 Ref: " ++ pyOr d.reference "N/A"]

/-- `format_ticket_message(data)`. -/
def format_ticket_message (d : TicketRecord) : String :=
  String.intercalate "\n" (format_ticket_message_lines d)

/-- The fixed skeleton of the ticket message, as §4.2 of the spec describes it:
a function of the nine rendered value strings only, so two records' messages
differ exactly in those value substrings. -/
def ticketSkeleton (numbers_str stars_str millon_code millon_date sorteo_label
    draw_date price bet_count balance reference : String) : List String :=
  ["🎫 *EUROMILLONES - Resguardo*",
   "━━━━━━━━━━━━━━━━━━━━━━━━",
   "",
   "📍 *Tu combinación:*",
   "   Números: " ++ numbers_str,
   "   Estrellas: " ++ stars_str,
   "",
   "━━━━━━━━━━━━━━━━━━━━━━━━",
   "",
   "🎰 *EL MILLÓN*",
   "   Código: " ++ millon_code,
   "   Fecha: " ++ millon_date,
   "",
   "━━━━━━━━━━━━━━━━━━━━━━━━",
   "",
   "📅 " ++ sorteo_label ++ ": " ++ draw_date,
   "💶 Importe: " ++ price,
   "🎟️ Apuestas: " ++ bet_count,
   "",
   "━━━━━━━━━━━━━━━━━━━━━━━━",
   "",
   "💰 *Saldo disponible:* " ++ balance,
   "",
   "🔖 Ref: " ++ reference]

/-! `check_euromillions.py`: `calculate_matches`, `find_prize`, `format_message`. -/

/-- One entry of a draw's `prizes` list. -/
structure PrizeTier where
  matched_numbers : Nat
  matched_stars : Nat
  prize : ℚ
  winners : Nat

/-- The fields of a draw that `format_message` / `find_prize` read. -/
structure Draw where
  date : String
  numbers : List String
  stars : List String
  has_winner : Bool
  prizes : List PrizeTier

/-- `calculate_matches` (lines 22-32): intersection cardinalities of the
deduplicated value sets. -/
def calculate_matches (my_numbers my_stars winning_numbers winning_stars : List String) :
    Nat × Nat :=
  ((my_numbers.toFinset ∩ winning_numbers.toFinset).card,
   (my_stars.toFinset ∩ winning_stars.toFinset).card)

/-- `find_prize` (lines 35-40): first tier whose key equals the match, else (0, 0). -/
def find_prize : List PrizeTier → Nat → Nat → ℚ × Nat
  | [], _, _ => (0, 0)
  | t :: rest, mn, ms =>
    if t.matched_numbers = mn ∧ t.matched_stars = ms then (t.prize, t.winners)
    else find_prize rest mn ms

/-- Split a reversed digit string into chunks of three (for `{:,}` grouping). -/
def chunk3 : List Char → List (List Char)
  | [] => []
  | [a] => [[a]]
  | [a, b] => [[a, b]]
  | a :: b :: c :: rest => [a, b, c] :: chunk3 rest

/-- Python `{:,.2f}` on a non-negative amount (value modelled as a rational). -/
def formatCurrency (q : ℚ) : String :=
  let cents : Int := round (q * 100)
  let n : Nat := cents.natAbs
  let sign := if cents < 0 then "-" else ""
  let euros := (List.intercalate [','] (chunk3 (toString (n / 100)).data.reverse)).reverse
  sign ++ euros.asString ++ "." ++ (if n % 100 < 10 then "0" else "") ++ toString (n % 100)

/-- The `lines` list built by `format_message` (lines 43-105). -/
def format_message_lines (draw : Draw) (my_numbers my_stars : List String)
    (matched_numbers matched_stars : Nat) (prize_amount : ℚ) (winners : Nat) :
    List String :=
  let my_nums_display :=
    my_numbers.map (fun num => if num ∈ draw.numbers then "[" ++ num ++ "]" else num)
  let my_stars_display :=
    my_stars.map (fun star => if star ∈ draw.stars then "[" ++ star ++ "]" else star)
  let lines :=
    ["🎰 *Euromillions Result - " ++ draw.date ++ "*",
     "",
     "🏆 *Winning combination:*",
     "   Numbers: " ++ String.intercalate " - " draw.numbers,
     "   Stars: " ++ String.intercalate " - " draw.stars,
     "",
     "🎫 *Your combination:*",
     "   Numbers: " ++ String.intercalate " - " my_nums_display,
     "   Stars: " ++ String.intercalate " - " my_stars_display,
     "",
     "📊 *Results:*",
     "   Matched numbers: " ++ toString matched_numbers ++ "/5",
     "   Matched stars: " ++ toString matched_stars ++ "/2"]
  let lines := lines ++
    (if prize_amount > 0 then
      ["",
       "💰 *YOU WON!*",
       "   Prize: €" ++ formatCurrency prize_amount,
       "   Winners in this category: " ++ toString winners]
    else
      ["",
       "😢 No prize this time loosers, you are still poor"])
  let lines := lines ++
    (if matched_numbers = 5 ∧ matched_stars = 2 then
      ["",
       "🎉🎉🎉 *JACKPOT!!! YOU ARE A MILLIONAIRE!!!* 🎉🎉🎉"]
    else [])
  let lines := lines ++
    (if draw.has_winner then ["\nℹ️ This draw had a jackpot winner!"] else [])
  lines ++ ["official results: https://www.loteriasyapuestas.es/es/resultados"]

/-- `format_message(...)`. -/
def format_message (draw : Draw) (my_numbers my_stars : List String)
    (matched_numbers matched_stars : Nat) (prize_amount : ℚ) (winners : Nat) : String :=
  String.intercalate "\n"
    (format_message_lines draw my_numbers my_stars matched_numbers matched_stars
      prize_amount winners)

/-! Coupon section extractor, modelled from the spec (§4.4): the repository
version under `src/` only sends a text message and contains no coupon
extraction code, so the component is reconstructed from the spec's words. -/

/-- Modelled from the spec: the known substring looked for inside the coupon
container's identifier attribute (§4.4, strategy (a)); the concrete value is
not recoverable from `src/`. -/
def couponIdMarker : String := "resguardo"

/-- Modelled from the spec: the known vendor asset filename looked for in a
table cell's background-image attribute (§4.4, strategy (b)); the concrete
value is not recoverable from `src/`. -/
def couponBgFilename : String := "fondo_resguardo"

/-- Modelled from the spec: the prefix of the third-party image caching/proxy
service whose URLs are rewritten back to their targets (§4.4). -/
def proxyMarker : String := "https://ci3.googleusercontent.com/"

/-- Modelled from the spec: opening tag of a container whose identifier
attribute contains the known substring (strategy (a)). -/
def couponIdPat : RE :=
  reSeq [reLitCI "<div", .starCls (fun c => !(c == '>')),
    reLitCI "id=\"", .starCls (fun c => !(c == '"')), reLitCI couponIdMarker]

/-- Modelled from the spec: opening tag of a table cell whose background-image
attribute references the known vendor asset filename (strategy (b)). -/
def couponBgPat : RE :=
  reSeq [reLitCI "<td", .starCls (fun c => !(c == '>')),
    reLitCI "background", .starCls (fun c => !(c == '>')), reLitCI couponBgFilename]

/-- Position just past the closing tag matching the element that starts at the
head of the scanned text, counting nested open/close tag pairs. -/
def findClose (openT closeT : List Char) : List Char → Nat → Nat → Option Nat
  | [], _, _ => none
  | l@(_ :: t), pos, depth =>
    if closeT.isPrefixOf l then
      if depth = 0 then some (pos + closeT.length)
      else findClose openT closeT t (pos + 1) (depth - 1)
    else if openT.isPrefixOf l then findClose openT closeT t (pos + 1) (depth + 1)
    else findClose openT closeT t (pos + 1) depth

/-- Modelled from the spec: strategy (a), the fragment from a container whose
identifier attribute contains the known substring up to its matching closing
boundary (to the end of the document when no close is found). -/
def couponStrategyA (l : List Char) : Option (List Char) :=
  match reSearch couponIdPat l with
  | none => none
  | some (p, _, _) =>
    let rest := l.drop p
    match findClose "<div".data "</div>".data (rest.drop 1) 1 0 with
    | some e => some (rest.take e)
    | none => some rest

/-- Modelled from the spec: strategy (b), the fragment from a table cell whose
background-image attribute references the known filename up to its matching
closing boundary. -/
def couponStrategyB (l : List Char) : Option (List Char) :=
  match reSearch couponBgPat l with
  | none => none
  | some (p, _, _) =>
    let rest := l.drop p
    match findClose "<td".data "</td>".data (rest.drop 1) 1 0 with
    | some e => some (rest.take e)
    | none => some rest

/-- Modelled from the spec: drop each proxy-prefixed URL together with its
delimiter, keeping the original target URL that follows. -/
def rewriteProxyAux : Nat → List Char → List Char
  | 0, l => l
  | _ + 1, [] => []
  | fuel + 1, l@(c :: t) =>
    if proxyMarker.data.isPrefixOf l then
      rewriteProxyAux fuel ((l.dropWhile (fun x => !(x == '#'))).drop 1)
    else c :: rewriteProxyAux fuel t

def rewriteProxy (l : List Char) : List Char :=
  rewriteProxyAux l.length l

/-- Modelled from the spec: wrap the captured fragment in a minimal standalone
document with fixed character encoding, fixed typography and a fixed
container width. -/
def wrapCoupon (fragment : String) : String :=
  "<!DOCTYPE html><html><head><meta charset=\"UTF-8\"><style>body \x7b margin:0; padding:20px; font-family:Arial,sans-serif; background:#ffffff; width:600px \x7d</style></head><body>" ++
    fragment ++ "</body></html>"

/-- Combine the two strategies' results: strategy (a) first, then (b); a
fatal error exactly when neither matched. -/
def couponResult : Option (List Char) → Option (List Char) → Except String String
  | some frag, _ => .ok (wrapCoupon (rewriteProxy frag).asString)
  | none, some frag => .ok (wrapCoupon (rewriteProxy frag).asString)
  | none, none => .error "Could not extract coupon from email HTML"

/-- Modelled from the spec: `extractCoupon` (§4.4).  Strategy (a) first, then
strategy (b); a fatal error exactly when neither matches; otherwise the
fragment, with proxy URLs rewritten, wrapped into a standalone document. -/
def extract_coupon_html (html : String) : Except String String :=
  couponResult (couponStrategyA html.data) (couponStrategyB html.data)

/-! Helper lemmas shared by the claim theorems. -/

/-- `find_prize` is the first-match lookup over the tier list. -/
theorem find_prize_eq_find? (prizes : List PrizeTier) (mn ms : Nat) :
    find_prize prizes mn ms =
      (match prizes.find?
          (fun t => t.matched_numbers == mn && t.matched_stars == ms) with
        | some t => (t.prize, t.winners)
        | none => ((0 : ℚ), (0 : Nat))) := by
  induction prizes with
  | nil => rfl
  | cons t rest ih =>
    by_cases h : t.matched_numbers = mn ∧ t.matched_stars = ms
    · rw [List.find?_cons_of_pos]
      · simp [find_prize, h]
      · simp [h.1, h.2]
    · rw [List.find?_cons_of_neg]
      · simp only [find_prize, if_neg h]
        exact ih
      · simpa using h

/-- When no tier key matches, `find_prize` yields (0, 0). -/
theorem find_prize_not_found (prizes : List PrizeTier) (mn ms : Nat)
    (h : ∀ t ∈ prizes, ¬(t.matched_numbers = mn ∧ t.matched_stars = ms)) :
    find_prize prizes mn ms = (0, 0) := by
  induction prizes with
  | nil => rfl
  | cons t rest ih =>
    simp only [find_prize, if_neg (h t (List.mem_cons_self t rest))]
    exact ih (fun u hu => h u (List.mem_cons_of_mem t hu))

/-- When the structural attempt produced numbers, the fallback never runs. -/
theorem extractedNumbersStars_structural (l : List Char)
    (hn : structuralNumbers l ≠ []) :
    extractedNumbersStars l = (structuralNumbers l, structuralStars l) := by
  simp [extractedNumbersStars, hn]

/-! Claim theorems. -/

/-- C1: `extract_ticket_data` is a total function on strings (it returns a
`TicketRecord` for every input by construction, never an error), and on the
empty string every field comes out absent: empty numbers and stars, no
optional field set, and the default bet count "1". -/
theorem extract_ticket_data_total_empty :
    extract_ticket_data "" =
      { numbers := [], stars := [], millon_code := none, millon_date := none,
        draw_date := none, price := none, bet_count := "1", balance := none,
        reference := none } := by
  decide

/-- C6: `calculate_matches` returns the cardinalities of the set-intersections
of chosen and winning values, so duplicates never inflate the counts; with at
most 5 chosen numbers and at most 2 chosen stars the results are bounded by 5
and 2, and empty chosen inputs yield (0, 0). -/
theorem calculate_matches_spec (mn ms wn ws : List String)
    (h5 : mn.length ≤ 5) (h2 : ms.length ≤ 2) :
    calculate_matches mn ms wn ws =
      ((mn.toFinset ∩ wn.toFinset).card, (ms.toFinset ∩ ws.toFinset).card) ∧
    (calculate_matches mn ms wn ws).1 ≤ 5 ∧
    (calculate_matches mn ms wn ws).2 ≤ 2 ∧
    calculate_matches [] [] wn ws = (0, 0) := by
  refine ⟨rfl, ?_, ?_, ?_⟩
  · exact le_trans
      (le_trans (Finset.card_le_card Finset.inter_subset_left) (List.toFinset_card_le mn)) h5
  · exact le_trans
      (le_trans (Finset.card_le_card Finset.inter_subset_left) (List.toFinset_card_le ms)) h2
  · simp [calculate_matches]

/-- C6 witness: duplicate values collapse ("01" twice, "05" twice) and the
bounds apply at a concrete input. -/
theorem calculate_matches_spec_witness :
    calculate_matches ["01", "01", "02"] ["05", "05"] ["01", "03"] ["05", "06"] =
      (((["01", "01", "02"] : List String).toFinset ∩
          (["01", "03"] : List String).toFinset).card,
       ((["05", "05"] : List String).toFinset ∩
          (["05", "06"] : List String).toFinset).card) :=
  (calculate_matches_spec ["01", "01", "02"] ["05", "05"] ["01", "03"] ["05", "06"]
    (by decide) (by decide)).1

/-- C7: `find_prize` returns the prize and winners of the first tier in table
order whose matched-numbers and matched-stars both equal the queried pair
(first match wins, no uniqueness assumed), and (0, 0) without error when no
tier matches. -/
theorem find_prize_spec (prizes : List PrizeTier) (mn ms : Nat) :
    find_prize prizes mn ms =
      (match prizes.find?
          (fun t => t.matched_numbers == mn && t.matched_stars == ms) with
        | some t => (t.prize, t.winners)
        | none => ((0 : ℚ), (0 : Nat))) ∧
    ((∀ t ∈ prizes, ¬(t.matched_numbers = mn ∧ t.matched_stars = ms)) →
      find_prize prizes mn ms = (0, 0)) :=
  ⟨find_prize_eq_find? prizes mn ms, find_prize_not_found prizes mn ms⟩

/-- C7 witness: a table with a duplicate key (2, 1) — the first tier's values
win — and an absent key (5, 2) mapped to (0, 0). -/
theorem find_prize_spec_witness :
    find_prize [⟨2, 1, 8, 100⟩, ⟨2, 1, 9, 200⟩] 5 2 = (0, 0) ∧
    find_prize [⟨2, 1, 8, 100⟩, ⟨2, 1, 9, 200⟩] 2 1 = (8, 100) :=
  ⟨(find_prize_spec [⟨2, 1, 8, 100⟩, ⟨2, 1, 9, 200⟩] 5 2).2 (by decide),
   (find_prize_spec [⟨2, 1, 8, 100⟩, ⟨2, 1, 9, 200⟩] 2 1).1.trans (by norm_num)⟩

/-- A document with a `+`-only cell preceded by exactly 5 and followed by
exactly 2 styled two-digit cells. -/
def structuralDoc : String :=
  "<td style=\"width:30px\">01</td><td style=\"width:30px\">02</td><td style=\"width:30px\">03</td><td style=\"width:30px\">04</td><td style=\"width:30px\">05</td><td>+</td><td style=\"width:30px\">06</td><td style=\"width:30px\">07</td>"

/-- A document with a `+`-only cell, no styled cell at all, and seven plain
two-digit cells in the 1..50 range. -/
def plusNoStyledDoc : String :=
  "<td>+</td><td>10</td><td>11</td><td>12</td><td>13</td><td>14</td><td>15</td><td>16</td>"

/-- A document without the `+` separator and with seven plain two-digit cells
in the 1..50 range. -/
def fallbackDoc : String :=
  "<td>21</td><td>22</td><td>23</td><td>24</td><td>25</td><td>26</td><td>27</td>"

/-- C2 counterexample: in `plusNoStyledDoc` the structural separator occurs,
yet because no styled cell precedes it the fallback scan overwrites the
(empty) structural result, so the extracted numbers are not the styled-cell
values before the separator. -/
theorem structural_overridden_counterexample :
    (reSearch plusPat plusNoStyledDoc.data).isSome = true ∧
    structuralNumbers plusNoStyledDoc.data = [] ∧
    structuralStars plusNoStyledDoc.data = [] ∧
    (extract_ticket_data plusNoStyledDoc).numbers = ["10", "11", "12", "13", "14"] ∧
    (extract_ticket_data plusNoStyledDoc).stars = ["15", "16"] := by
  refine ⟨by decide, by decide, by decide, by decide, by decide⟩

/-- C2 amended: for every input document in which the structural separator
occurs and at least one styled two-digit cell precedes it, the extractor sets
the numbers to the last 5 styled-cell values before the separator and the
stars to the first 2 such values after it (when no styled cell precedes the
separator, the structural result is empty and the fallback scan may override
it instead). -/
theorem structural_extraction_amended (html : String)
    (_hsep : (reSearch plusPat html.data).isSome = true)
    (hn : structuralNumbers html.data ≠ []) :
    (extract_ticket_data html).numbers = structuralNumbers html.data ∧
    (extract_ticket_data html).stars = structuralStars html.data := by
  have h := extractedNumbersStars_structural html.data hn
  exact ⟨by simp [extract_ticket_data, h], by simp [extract_ticket_data, h]⟩

/-- C2 witness: on `structuralDoc` the amended theorem applies and yields
exactly the 5 numbers and 2 stars in document order. -/
theorem structural_extraction_amended_witness :
    (extract_ticket_data structuralDoc).numbers = ["01", "02", "03", "04", "05"] ∧
    (extract_ticket_data structuralDoc).stars = ["06", "07"] := by
  have h := structural_extraction_amended structuralDoc (by decide) (by decide)
  exact ⟨h.1.trans (by decide), h.2.trans (by decide)⟩

/-- C3: when the structural extraction yields nothing and the whole-document
scan of plain two-digit cells filtered to 1..50 keeps at least 7 values, the
numbers become the first 5 and the stars the next 2 of that sequence; and in
every case the output pair comes entirely from one strategy (structural pair
or fallback pair), never a mix of both. -/
theorem fallback_extraction_spec (html : String) :
    (structuralNumbers html.data = [] → structuralStars html.data = [] →
      7 ≤ (fallbackFiltered html.data).length →
      (extract_ticket_data html).numbers = (fallbackFiltered html.data).take 5 ∧
      (extract_ticket_data html).stars = ((fallbackFiltered html.data).drop 5).take 2) ∧
    (((extract_ticket_data html).numbers, (extract_ticket_data html).stars) =
        (structuralNumbers html.data, structuralStars html.data) ∨
      ((extract_ticket_data html).numbers, (extract_ticket_data html).stars) =
        ((fallbackFiltered html.data).take 5, ((fallbackFiltered html.data).drop 5).take 2)) := by
  constructor
  · intro h1 _ h7
    constructor
    · simp [extract_ticket_data, extractedNumbersStars, h1, h7]
    · simp [extract_ticket_data, extractedNumbersStars, h1, h7]
  · by_cases h1 : structuralNumbers html.data = []
    · by_cases h7 : 7 ≤ (fallbackFiltered html.data).length
      · right
        simp only [Prod.mk.injEq]
        exact ⟨by simp [extract_ticket_data, extractedNumbersStars, h1, h7],
          by simp [extract_ticket_data, extractedNumbersStars, h1, h7]⟩
      · left
        simp only [Prod.mk.injEq]
        exact ⟨by simp [extract_ticket_data, extractedNumbersStars, h1, h7],
          by simp [extract_ticket_data, extractedNumbersStars, h1, h7]⟩
    · left
      have h := extractedNumbersStars_structural html.data h1
      simp only [Prod.mk.injEq]
      exact ⟨by simp [extract_ticket_data, h], by simp [extract_ticket_data, h]⟩

/-- C3 witness: `fallbackDoc` lacks the separator, the filtered scan finds
exactly 7 plausible values, and the extractor splits them 5 / 2. -/
theorem fallback_extraction_spec_witness :
    (extract_ticket_data fallbackDoc).numbers = ["21", "22", "23", "24", "25"] ∧
    (extract_ticket_data fallbackDoc).stars = ["26", "27"] := by
  have h := (fallback_extraction_spec fallbackDoc).1 (by decide) (by decide) (by decide)
  exact ⟨h.1.trans (by decide), h.2.trans (by decide)⟩

/-- C5 counterexample: the secondary-game-code and price patterns are
compiled without `re.IGNORECASE`, so a lower-case variant that a
case-insensitive match would accept is rejected while the upper-case variant
matches. -/
theorem case_insensitive_counterexample :
    (extract_ticket_data "abc12345").millon_code = none ∧
    (extract_ticket_data "ABC12345").millon_code = some "ABC12345" ∧
    (extract_ticket_data "12 eur").price = none ∧
    (extract_ticket_data "12 EUR").price = some "12 EUR" := by
  refine ⟨by decide, by decide, by decide, by decide⟩

/-- C5 amended: the balance, numbers/stars-cell, secondary-game-date and
bet-count matches are case-insensitive and span embedded line breaks, but the
secondary-game code, draw date and price matches are case-sensitive (they
require upper-case letters, respectively an upper-case currency code); the
reference pattern contains no letters. -/
theorem case_sensitivity_amended :
    (extract_ticket_data "Saldo Actual Es 99€").balance = some "99€" ∧
    (extract_ticket_data "saldo actual es:\n12\n€").balance = some "12€" ∧
    (extract_ticket_data "3 APUESTAS").bet_count = "3" ∧
    pyFindAll numberPat "<td STYLE=\"WIDTH:30px\">\n09\n</td>".data = ["09"] ∧
    (extract_ticket_data "game_millon_ticket.gif <p>23 ene 26</p>").millon_date =
      some "23 ene 26" ∧
    (extract_ticket_data "xyz54321").millon_code = none ∧
    (extract_ticket_data "XYZ54321").millon_code = some "XYZ54321" ∧
    (extract_ticket_data "7 eur").price = none ∧
    (extract_ticket_data "7 EUR").price = some "7 EUR" ∧
    (extract_ticket_data "5 feb 2030").draw_date = none ∧
    (extract_ticket_data "5 FEB 2030").draw_date = some "5 FEB 2030" := by
  refine ⟨by decide, by decide, by decide, by decide, by decide, by decide,
    by decide, by decide, by decide, by decide, by decide⟩

/-- The draw of the worked example in the spec. -/
def exampleDraw : Draw :=
  ⟨"2026-01-23", ["07", "12", "19", "20", "41"], ["02", "11"], false, []⟩

/-- C8: in the draw message, a chosen number is wrapped in brackets exactly
when it appears in the winning numbers and a chosen star exactly when it
appears in the winning stars (lines 7 and 8 of the message, numbers never
compared against stars); on the spec's example the matches are (4, 1) and the
chosen-numbers line renders as `03 - [07] - [12] - [19] - [41]`. -/
theorem bracket_markup_spec :
    (∀ (draw : Draw) (my_numbers my_stars : List String) (a b : Nat) (pa : ℚ) (w : Nat),
      (format_message_lines draw my_numbers my_stars a b pa w)[7]? =
        some ("   Numbers: " ++ String.intercalate " - "
          (my_numbers.map (fun num =>
            if num ∈ draw.numbers then "[" ++ num ++ "]" else num))) ∧
      (format_message_lines draw my_numbers my_stars a b pa w)[8]? =
        some ("   Stars: " ++ String.intercalate " - "
          (my_stars.map (fun star =>
            if star ∈ draw.stars then "[" ++ star ++ "]" else star)))) ∧
    calculate_matches ["03", "07", "12", "19", "41"] ["02", "09"]
      ["07", "12", "19", "20", "41"] ["02", "11"] = (4, 1) ∧
    (format_message_lines exampleDraw ["03", "07", "12", "19", "41"] ["02", "09"]
        4 1 0 0)[7]? = some "   Numbers: 03 - [07] - [12] - [19] - [41]" ∧
    (format_message_lines exampleDraw ["03", "07", "12", "19", "41"] ["02", "09"]
        4 1 0 0)[8]? = some "   Stars: [02] - 09" := by
  refine ⟨?_, by decide, by decide, by decide⟩
  intro draw my_numbers my_stars a b pa w
  constructor
  · simp [format_message_lines, List.getElem?_append_left]
  · simp [format_message_lines, List.getElem?_append_left]

/-- C9: the ticket message is the fixed skeleton applied to the rendered
value strings (so two records' messages share labels, ordering and
separators, differing only in the value substrings), every absent field is
rendered as the literal "N/A", and the plural draw label is chosen exactly
when the rendered draw-date string contains the range delimiter " - ". -/
theorem ticket_message_spec (d : TicketRecord) :
    format_ticket_message_lines d =
      ticketSkeleton (numbersStr d) (starsStr d) (pyOr d.millon_code "N/A")
        (millonDateStr d) (sorteoLabel d) (drawDateStr d) (pyOr d.price "N/A")
        d.bet_count (pyOr d.balance "N/A") (pyOr d.reference "N/A") ∧
    (d.numbers = [] → numbersStr d = "N/A") ∧
    (d.stars = [] → starsStr d = "N/A") ∧
    (d.millon_code = none → pyOr d.millon_code "N/A" = "N/A") ∧
    (d.millon_date = none → millonDateStr d = "N/A") ∧
    (d.draw_date = none → drawDateStr d = "N/A") ∧
    (d.price = none → pyOr d.price "N/A" = "N/A") ∧
    (d.balance = none → pyOr d.balance "N/A" = "N/A") ∧
    (d.reference = none → pyOr d.reference "N/A" = "N/A") ∧
    (sorteoLabel d = "Sorteos" ↔
      strContains " - ".data (drawDateStr d).data = true) := by
  refine ⟨rfl, ?_, ?_, ?_, ?_, ?_, ?_, ?_, ?_, ?_⟩
  · intro h; simp [numbersStr, h]
  · intro h; simp [starsStr, h]
  · intro h; simp [pyOr, h]
  · intro h; simp [millonDateStr, pyOr, h]
  · intro h; simp [drawDateStr, pyOr, h]
  · intro h; simp [pyOr, h]
  · intro h; simp [pyOr, h]
  · intro h; simp [pyOr, h]
  · cases hb : strContains " - ".data (drawDateStr d).data
    · simp only [sorteoLabel, hb, if_neg Bool.false_ne_true]
      constructor
      · intro h; exact absurd h (by decide)
      · intro h; exact absurd h (by decide)
    · simp [sorteoLabel, hb]

/-- The all-fields-absent ticket record. -/
def emptyTicket : TicketRecord :=
  ⟨[], [], none, none, none, none, "1", none, none⟩

/-- An all-fields-present ticket record (single draw date, so the singular
label applies as it does for the absent record). -/
def fullTicket : TicketRecord :=
  ⟨["01", "02", "03", "04", "05"], ["06", "07"], some "ABC12345", some "23 ENE 26",
   some "23 ENE 2026", some "10 EUR", "2", some "55€",
   some "12345-1234-12345-12345-12345-12345-12345"⟩

/-- C9 witness: the all-present and all-absent records both render as the
same skeleton, the second with every value substring equal to "N/A". -/
theorem ticket_message_spec_witness :
    format_ticket_message_lines emptyTicket =
      ticketSkeleton "N/A" "N/A" "N/A" "N/A" "Sorteo" "N/A" "N/A" "1" "N/A" "N/A" ∧
    format_ticket_message_lines fullTicket =
      ticketSkeleton "01 - 02 - 03 - 04 - 05" "06 - 07" "ABC12345" "23 ENE 26"
        "Sorteo" "23 ENE 2026" "10 EUR" "2" "55€"
        "12345-1234-12345-12345-12345-12345-12345" ∧
    numbersStr emptyTicket = "N/A" ∧
    drawDateStr emptyTicket = "N/A" :=
  ⟨(ticket_message_spec emptyTicket).1, (ticket_message_spec fullTicket).1,
   (ticket_message_spec emptyTicket).2.1 rfl,
   (ticket_message_spec emptyTicket).2.2.2.2.2.1 rfl⟩

/-- C10: the jackpot banner depends only on the matched counts: when the
prize table has no (5, 2) tier, a (5, 2) match gets `find_prize` = (0, 0),
and the message contains both the no-prize consolation line and the jackpot
banner. -/
theorem jackpot_banner_spec (draw : Draw) (my_numbers my_stars : List String)
    (h : ∀ t ∈ draw.prizes, ¬(t.matched_numbers = 5 ∧ t.matched_stars = 2)) :
    find_prize draw.prizes 5 2 = (0, 0) ∧
    "😢 No prize this time loosers, you are still poor" ∈
      format_message_lines draw my_numbers my_stars 5 2
        (find_prize draw.prizes 5 2).1 (find_prize draw.prizes 5 2).2 ∧
    "🎉🎉🎉 *JACKPOT!!! YOU ARE A MILLIONAIRE!!!* 🎉🎉🎉" ∈
      format_message_lines draw my_numbers my_stars 5 2
        (find_prize draw.prizes 5 2).1 (find_prize draw.prizes 5 2).2 := by
  have h0 : find_prize draw.prizes 5 2 = (0, 0) := find_prize_not_found draw.prizes 5 2 h
  rw [h0]
  refine ⟨rfl, ?_, ?_⟩
  · simp [format_message_lines]
  · simp [format_message_lines]

/-- A draw whose prize table has tiers but none keyed (5, 2). -/
def noJackpotTierDraw : Draw :=
  ⟨"2026-01-23", ["01", "02", "03", "04", "05"], ["06", "07"], false,
   [⟨2, 1, 8, 100⟩, ⟨3, 0, 12, 50⟩]⟩

/-- C10 witness: the consolation line and the jackpot banner both appear for
a (5, 2) match against `noJackpotTierDraw`. -/
theorem jackpot_banner_spec_witness :
    find_prize noJackpotTierDraw.prizes 5 2 = (0, 0) ∧
    "😢 No prize this time loosers, you are still poor" ∈
      format_message_lines noJackpotTierDraw ["01", "02", "03", "04", "05"]
        ["06", "07"] 5 2 (find_prize noJackpotTierDraw.prizes 5 2).1
        (find_prize noJackpotTierDraw.prizes 5 2).2 ∧
    "🎉🎉🎉 *JACKPOT!!! YOU ARE A MILLIONAIRE!!!* 🎉🎉🎉" ∈
      format_message_lines noJackpotTierDraw ["01", "02", "03", "04", "05"]
        ["06", "07"] 5 2 (find_prize noJackpotTierDraw.prizes 5 2).1
        (find_prize noJackpotTierDraw.prizes 5 2).2 :=
  jackpot_banner_spec noJackpotTierDraw ["01", "02", "03", "04", "05"]
    ["06", "07"] (by decide)

/-- C4: the coupon extractor fails with the fatal error exactly when neither
the identifier-substring strategy nor the background-image strategy matches,
and otherwise wraps the captured fragment, with proxy image URLs rewritten to
their targets, into the standalone document. -/
theorem coupon_extraction_spec (html : String) :
    ((∃ e, extract_coupon_html html = .error e) ↔
      (couponStrategyA html.data = none ∧ couponStrategyB html.data = none)) ∧
    (∀ frag, couponStrategyA html.data = some frag →
      extract_coupon_html html = .ok (wrapCoupon (rewriteProxy frag).asString)) ∧
    (∀ frag, couponStrategyA html.data = none → couponStrategyB html.data = some frag →
      extract_coupon_html html = .ok (wrapCoupon (rewriteProxy frag).asString)) ∧
    (couponStrategyA html.data = none → couponStrategyB html.data = none →
      extract_coupon_html html = .error "Could not extract coupon from email HTML") := by
  have hrepr : extract_coupon_html html =
      couponResult (couponStrategyA html.data) (couponStrategyB html.data) := rfl
  rw [hrepr]
  cases hA : couponStrategyA html.data with
  | some f =>
    refine ⟨?_, ?_, ?_, ?_⟩
    · constructor
      · rintro ⟨e, he⟩
        simp [couponResult] at he
      · rintro ⟨hA', _⟩
        simp at hA'
    · intro frag hfrag
      simp only [Option.some.injEq] at hfrag
      simp [couponResult, hfrag]
    · intro frag hA' _
      simp at hA'
    · intro hA' _
      simp at hA'
  | none =>
    cases hB : couponStrategyB html.data with
    | some f =>
      refine ⟨?_, ?_, ?_, ?_⟩
      · constructor
        · rintro ⟨e, he⟩
          simp [couponResult] at he
        · rintro ⟨_, hB'⟩
          simp at hB'
      · intro frag hfrag
        simp at hfrag
      · intro frag _ hB'
        simp only [Option.some.injEq] at hB'
        simp [couponResult, hB']
      · intro _ hB'
        simp at hB'
    | none =>
      refine ⟨?_, ?_, ?_, ?_⟩
      · exact ⟨fun _ => ⟨rfl, rfl⟩,
          fun _ => ⟨"Could not extract coupon from email HTML", rfl⟩⟩
      · intro frag hfrag
        simp at hfrag
      · intro frag _ hB'
        simp at hB'
      · intro _ _
        rfl

/-- A document whose coupon container carries the identifier substring and a
proxied image. -/
def couponDoc : String :=
  "<html><body><div id=\"e-resguardo-x\"><div>inner</div><img src=\"https://ci3.googleusercontent.com/meips/xyz#https://example.com/a.png\"></div><p>after</p></body></html>"

/-- The coupon fragment that strategy (a) captures from `couponDoc`. -/
def couponDocFragment : String :=
  "<div id=\"e-resguardo-x\"><div>inner</div><img src=\"https://ci3.googleusercontent.com/meips/xyz#https://example.com/a.png\"></div>"

/-- C4 witness: on `couponDoc` the extractor succeeds with the wrapped,
proxy-rewritten fragment; on a document matching neither strategy it signals
the fatal error. -/
theorem coupon_extraction_spec_witness :
    extract_coupon_html couponDoc =
      .ok (wrapCoupon (rewriteProxy couponDocFragment.data).asString) ∧
    extract_coupon_html "no coupon here" =
      .error "Could not extract coupon from email HTML" :=
  ⟨(coupon_extraction_spec couponDoc).2.1 couponDocFragment.data (by decide),
   (coupon_extraction_spec "no coupon here").2.2.2 (by decide) (by decide)⟩

end Millionaires
